import Mathlib

/-
Verification of the VoterFrontend agent-tracking code.

Shallow embedding of:
  - src/components/admin/AgentTracking.tsx
      (reconciliation store: handleLocationUpdate, handleStatusUpdate,
       snapshot loading, retry logic of loadAgentLocations, the mount
       effect with its fallback polling interval)
  - src/services/WebSocketService.ts
      (connection state machine: connect, disconnect, onConnect,
       handleReconnect, subscribeToTopics, transport-failure handlers)
  - the GoogleMap component (MapComponent bounds-fitting effect)

Conventions: JavaScript numbers appearing here are small integers, so they
are modelled as Nat or Int. Timestamps and identifiers are Strings.
Optional JSON fields are Option values, where none models an absent key
(spreading an object copies only present keys). Stateful handlers become
pure functions from state to state, paired with the externally visible
actions or scheduled timer delays they produce.
-/

/-- The connectionStatus union type of AgentTracking.tsx / WebSocketService.ts:
ONLINE, OFFLINE or DISCONNECTED. -/
inductive ConnectionStatus where
  | online
  | offline
  | disconnected
deriving DecidableEq, Repr

/-- The AgentLocation record stored by AgentTracking.tsx (the reconciliation
store is a list of these). Fields marked optional in TypeScript
(accuracy, batteryLevel, isCharging) are Options. -/
structure AgentLocation where
  agentId : String
  agentFirstName : String
  agentLastName : String
  agentMobile : String
  lastLocation : String
  latitude : Int
  longitude : Int
  accuracy : Option Nat
  connectionStatus : ConnectionStatus
  lastUpdate : String
  batteryLevel : Option Nat
  isCharging : Option Bool
  isOnline : Bool
deriving DecidableEq, Repr

/-- The AgentLocationUpdate event payload of WebSocketService.ts. Optional
fields are Options; none models a key that is absent from the JSON payload. -/
structure AgentLocationUpdate where
  agentId : String
  agentFirstName : String
  agentLastName : String
  agentMobile : String
  lastLocation : String
  latitude : Int
  longitude : Int
  accuracy : Option Nat
  connectionStatus : ConnectionStatus
  lastUpdate : String
  batteryLevel : Option Nat
  isCharging : Option Bool
  isOnline : Bool
deriving DecidableEq, Repr

/-- The ConnectionStatusUpdate event payload of WebSocketService.ts. -/
structure ConnectionStatusUpdate where
  agentId : String
  status : ConnectionStatus
  timestamp : String
deriving DecidableEq, Repr

/-- Object-spread semantics for one optional field: a key present in the
incoming payload overwrites the stored value, an absent key leaves the
stored value in place. -/
def spreadOpt {α : Type} (stored incoming : Option α) : Option α :=
  match incoming with
  | some v => some v
  | none => stored

/-- The merge in handleLocationUpdate (AgentTracking.tsx line 156):
spread of the stored agent, then the update, then lastUpdate set to the
current time. Required fields of the update always overwrite; optional
fields overwrite only when present. Note that isOnline and
connectionStatus are copied verbatim from the update. -/
def mergeAgent (agent : AgentLocation) (update : AgentLocationUpdate)
    (currentTime : String) : AgentLocation :=
  { agentId := update.agentId
    agentFirstName := update.agentFirstName
    agentLastName := update.agentLastName
    agentMobile := update.agentMobile
    lastLocation := update.lastLocation
    latitude := update.latitude
    longitude := update.longitude
    accuracy := spreadOpt agent.accuracy update.accuracy
    connectionStatus := update.connectionStatus
    lastUpdate := currentTime
    batteryLevel := spreadOpt agent.batteryLevel update.batteryLevel
    isCharging := spreadOpt agent.isCharging update.isCharging
    isOnline := update.isOnline }

/-- The record pushed for an unknown agentId in handleLocationUpdate
(AgentTracking.tsx line 162): spread of the update with lastUpdate set to
the current time. -/
def newAgentFromUpdate (update : AgentLocationUpdate) (currentTime : String) :
    AgentLocation :=
  { agentId := update.agentId
    agentFirstName := update.agentFirstName
    agentLastName := update.agentLastName
    agentMobile := update.agentMobile
    lastLocation := update.lastLocation
    latitude := update.latitude
    longitude := update.longitude
    accuracy := update.accuracy
    connectionStatus := update.connectionStatus
    lastUpdate := currentTime
    batteryLevel := update.batteryLevel
    isCharging := update.isCharging
    isOnline := update.isOnline }

/-- handleLocationUpdate of AgentTracking.tsx (lines 151-170): map a merge
over the store at the matching agentId, then push a new record when the
agentId was not found. -/
def handleLocationUpdate (currentTime : String) (update : AgentLocationUpdate)
    (prevAgents : List AgentLocation) : List AgentLocation :=
  let updatedAgents := prevAgents.map fun agent =>
    if agent.agentId == update.agentId then mergeAgent agent update currentTime
    else agent
  if updatedAgents.any fun agent => agent.agentId == update.agentId then
    updatedAgents
  else
    updatedAgents ++ [newAgentFromUpdate update currentTime]

/-- handleStatusUpdate of AgentTracking.tsx (lines 173-188): map over the
store, updating connectionStatus, recomputing isOnline and stamping
lastUpdate at the matching agentId; other records are untouched and no
record is ever created. -/
def handleStatusUpdate (currentTime : String) (update : ConnectionStatusUpdate)
    (prevAgents : List AgentLocation) : List AgentLocation :=
  prevAgents.map fun agent =>
    if agent.agentId == update.agentId then
      { agent with
        connectionStatus := update.status
        isOnline := update.status == ConnectionStatus.online
        lastUpdate := currentTime }
    else agent

/-- The snapshot path of loadAgentLocations (AgentTracking.tsx line 90):
setAgents(result.data || []) stores the server payload verbatim. -/
def applySnapshot (data : Option (List AgentLocation)) : List AgentLocation :=
  data.getD []

/-- The claimed store invariant: isOnline equals (connectionStatus is ONLINE). -/
def isOnlineInvariant (a : AgentLocation) : Bool :=
  a.isOnline == (a.connectionStatus == ConnectionStatus.online)

/-- The same consistency condition on an incoming location-update payload. -/
def eventConsistent (u : AgentLocationUpdate) : Bool :=
  u.isOnline == (u.connectionStatus == ConnectionStatus.online)

/-- MAX_RETRY_ATTEMPTS of AgentTracking.tsx (line 56). -/
def MAX_RETRY_ATTEMPTS : Nat := 3

/-- RETRY_DELAY of AgentTracking.tsx (line 57), in milliseconds. -/
def RETRY_DELAY : Nat := 2000

/-- UPDATE_INTERVAL of AgentTracking.tsx (line 58): the fallback poll period
in milliseconds. -/
def UPDATE_INTERVAL : Nat := 30000

/-- The user-facing message used when the failure is an AbortError
(AgentTracking.tsx line 110), i.e. when the 10-second timeout fired. -/
def timeoutErrorMessage : String := "Request timed out. Please check your connection."

/-- The component state touched by the catch branch of loadAgentLocations:
the retryCount state, whether showError was called (and with which message),
and whether setAgents([]) cleared the store. -/
structure RetryState where
  retryCount : Nat
  errorShown : Bool
  errorMessage : Option String
  agentsCleared : Bool
deriving DecidableEq, Repr

/-- State after the initial (non-retry) invocation reset retryCount to 0. -/
def initialRetryState : RetryState :=
  { retryCount := 0, errorShown := false, errorMessage := none, agentsCleared := false }

/-- The catch branch of loadAgentLocations (AgentTracking.tsx lines 96-115).
captured is the retryCount value read by the executing closure (a React
render captures the state value of that render), isAbort tells whether
error.name was AbortError, errMsg is error.message already defaulted to
the fallback text. Returns the new state and the delay of the scheduled
retry, when one is scheduled. -/
def onLoadFailure (captured : Nat) (isAbort : Bool) (errMsg : String)
    (s : RetryState) : RetryState × Option Nat :=
  if captured < MAX_RETRY_ATTEMPTS ∧ isAbort = false then
    ({ s with retryCount := s.retryCount + 1 }, some (RETRY_DELAY * (captured + 1)))
  else
    ({ s with
        errorShown := true
        errorMessage := some (if isAbort then timeoutErrorMessage else errMsg)
        agentsCleared := true }, none)

/-- n consecutive non-abort fetch failures of the mount-time load chain.
The setTimeout callback scheduled on failure re-invokes the
loadAgentLocations closure of the render in which the mount effect ran, so
every invocation of the chain reads the captured retryCount value 0 (the
useState initial value of that render); setRetryCount only affects later
renders, not this closure. Returns the state and the list of scheduled
retry delays. -/
def mountLoadFailures : Nat → RetryState × List Nat
  | 0 => (initialRetryState, [])
  | n + 1 =>
    let prev := mountLoadFailures n
    let step := onLoadFailure 0 false "Failed to load agent locations" prev.1
    (step.1, prev.2 ++ step.2.toList)

/-- The same failure chain under the counterfactual reading in which every
invocation reads the then-current retryCount state (no stale capture). -/
def freshLoadFailures : Nat → RetryState × List Nat
  | 0 => (initialRetryState, [])
  | n + 1 =>
    let prev := freshLoadFailures n
    let step := onLoadFailure prev.1.retryCount false "Failed to load agent locations" prev.1
    (step.1, prev.2 ++ step.2.toList)

/-- maxReconnectAttempts of WebSocketService.ts (line 34). -/
def maxReconnectAttempts : Nat := 5

/-- maxReconnectDelay of WebSocketService.ts (line 36), in milliseconds. -/
def maxReconnectDelay : Nat := 30000

/-- The initial value of the reconnectDelay field (WebSocketService.ts
line 35), restored on every successful connect. -/
def initialReconnectDelay : Nat := 1000

/-- The mutable fields of the WebSocketService singleton, plus the
pending reconnect setTimeout timers (their delays, in scheduling order).
The service itself keeps no handle to these timers. -/
structure WsState where
  clientExists : Bool
  isConnected : Bool
  reconnectAttempts : Nat
  reconnectDelay : Nat
  pendingReconnects : List Nat
deriving DecidableEq, Repr

/-- Externally visible actions of the service: STOMP client activation and
deactivation, connection-listener notifications, topic subscriptions. -/
inductive WsAction where
  | activate
  | deactivate
  | notifyConnected (connected : Bool)
  | subscribeTopic (topic : String)
deriving DecidableEq, Repr

/-- State after the constructor ran setupClient with a token present. -/
def initialWsState : WsState :=
  { clientExists := true
    isConnected := false
    reconnectAttempts := 0
    reconnectDelay := initialReconnectDelay
    pendingReconnects := [] }

/-- setupClient (WebSocketService.ts lines 46-101): creates the client when
an auth token is present, otherwise leaves the service without a client. -/
def setupClient (hasToken : Bool) (s : WsState) : WsState :=
  if hasToken then { s with clientExists := true } else s

/-- subscribeToTopics (WebSocketService.ts lines 103-143): emits the three
topic subscriptions when the client exists and is connected, otherwise
nothing. -/
def subscribeToTopics (s : WsState) : List WsAction :=
  if s.clientExists && s.isConnected then
    [WsAction.subscribeTopic "/topic/location/updates",
     WsAction.subscribeTopic "/topic/location/status",
     WsAction.subscribeTopic "/topic/location/disconnection"]
  else []

/-- The onConnect handler (WebSocketService.ts lines 66-73): marks the
service connected, resets reconnectAttempts to 0 and reconnectDelay to
1000, notifies listeners and subscribes to the topics. -/
def onConnect (s : WsState) : WsState × List WsAction :=
  let s1 := { s with
    isConnected := true
    reconnectAttempts := 0
    reconnectDelay := initialReconnectDelay }
  (s1, WsAction.notifyConnected true :: subscribeToTopics s1)

/-- handleReconnect (WebSocketService.ts lines 145-161): gives up once
reconnectAttempts reached maxReconnectAttempts, otherwise increments the
counter and schedules a reconnect timer with delay
min(reconnectDelay * 2 ^ (attempts - 1), maxReconnectDelay). Returns the
scheduled delay, when one was scheduled. -/
def handleReconnect (s : WsState) : WsState × Option Nat :=
  if s.reconnectAttempts ≥ maxReconnectAttempts then (s, none)
  else
    let attempts := s.reconnectAttempts + 1
    let delay := min (s.reconnectDelay * 2 ^ (attempts - 1)) maxReconnectDelay
    ({ s with
        reconnectAttempts := attempts
        pendingReconnects := s.pendingReconnects ++ [delay] }, some delay)

/-- The common body of onStompError, onWebSocketError and onWebSocketClose
(WebSocketService.ts lines 81-100): mark disconnected, notify listeners,
then handleReconnect. Returns the new state, the emitted notifications and
the scheduled reconnect delay, if any. -/
def onTransportFailure (s : WsState) : WsState × List WsAction × Option Nat :=
  let r := handleReconnect { s with isConnected := false }
  (r.1, [WsAction.notifyConnected false], r.2)

/-- connect (WebSocketService.ts lines 163-177): a no-op when already
connected; otherwise ensures the client exists (setupClient, which needs a
token) and activates it. -/
def connect (hasToken : Bool) (s : WsState) : WsState × List WsAction :=
  if s.isConnected then (s, [])
  else
    let s1 := if s.clientExists then s else setupClient hasToken s
    if s1.clientExists then (s1, [WsAction.activate]) else (s1, [])

/-- disconnect (WebSocketService.ts lines 179-186): when the client exists,
deactivates it, marks the service disconnected and notifies listeners.
Pending reconnect timers are not touched (the service holds no handle to
them). -/
def disconnect (s : WsState) : WsState × List WsAction :=
  if s.clientExists then
    ({ s with isConnected := false },
     [WsAction.deactivate, WsAction.notifyConnected false])
  else (s, [])

/-- The body of the setTimeout callback scheduled by handleReconnect
(WebSocketService.ts lines 156-160): the fired timer leaves the pending
queue; then, when the service is not connected, connect() is invoked. -/
def fireReconnectTimer (hasToken : Bool) (s : WsState) : WsState × List WsAction :=
  let s1 := { s with pendingReconnects := s.pendingReconnects.drop 1 }
  if s1.isConnected then (s1, []) else connect hasToken s1

/-- Iterate consecutive transport failures from a given service state. -/
def afterFailuresFrom (s : WsState) : Nat → WsState
  | 0 => s
  | n + 1 => (onTransportFailure (afterFailuresFrom s n)).1

/-- The reconnect delay scheduled by the nth consecutive transport failure
(counting from 1), starting from service state s. -/
def nthFailureDelayFrom (s : WsState) (n : Nat) : Option Nat :=
  (onTransportFailure (afterFailuresFrom s (n - 1))).2.2

/-- A reachable state with a pending reconnect timer while connected: one
transport failure (which schedules a 1000 ms reconnect timer) followed by a
successful connect before that timer fired. -/
def pendingAfterReconnectScheduled : WsState :=
  (onConnect (afterFailuresFrom initialWsState 1)).1

/-- The wsConnected piece of the AgentTracking component state
(useState(false) at AgentTracking.tsx line 41). -/
structure TrackingState where
  wsConnected : Bool
deriving DecidableEq, Repr

/-- handleConnectionChange (AgentTracking.tsx lines 191-198): stores the
reported connection flag (and shows a toast, not modelled). -/
def handleConnectionChange (connected : Bool) (s : TrackingState) : TrackingState :=
  { s with wsConnected := connected }

/-- The wsConnected value captured by the mount effect (AgentTracking.tsx
lines 201-237). The effect has an empty dependency array, so it runs once,
and the interval callback it creates closes over the wsConnected binding of
that first render, whose value is the useState initial value false. Later
setWsConnected calls update the state of later renders, never this binding. -/
def mountCapturedWsConnected : Bool := false

/-- The guard of the fallback poll interval callback (AgentTracking.tsx
lines 217-222): the snapshot and statistics fetches are issued exactly when
the captured wsConnected binding is false. -/
def fallbackPollFetches (capturedWsConnected : Bool) : Bool :=
  !capturedWsConnected

/-- A marker position (latitude, longitude); coordinate arithmetic is not
needed by any claim, so coordinates are plain integers. -/
abbrev LatLng := Int × Int

/-- The two mode-controlling props of GoogleMapProps (autoFitBounds and
preserveZoom); the caller passes autoFitBounds true exactly in overview
mode and preserveZoom true exactly in agent-detail mode. The remaining
props (agents, center, zoom, ...) appear as separate arguments where used. -/
structure GoogleMapProps where
  autoFitBounds : Bool
  preserveZoom : Bool
deriving DecidableEq, Repr

/-- Outcome of the bounds-fitting effect of MapComponent. -/
inductive FitOutcome where
  | noop
  | centerSingle (position : LatLng) (zoom : Nat)
  | fitBoundsClamped (finalZoom : Nat)
deriving DecidableEq, Repr

/-- The bounds-fitting effect body of MapComponent (part_000 lines 939-984).
markers is the marker registry in insertion order, each entry the result of
getPosition() (none when null). fitZoom is the zoom level the maps library
chooses for fitBounds on the computed bounds; the bounds-changed listener
then clamps it to 16. With exactly one valid marker the map is centered on
the first registered marker at zoom 15. -/
def boundsFitEffect (hasMap : Bool) (markers : List (Option LatLng))
    (fitZoom : Nat) : FitOutcome :=
  if hasMap = false ∨ markers.length = 0 then FitOutcome.noop
  else
    let validMarkers := (markers.filterMap id).length
    if validMarkers = 1 then
      match markers.head? with
      | some (some p) => FitOutcome.centerSingle p 15
      | _ => FitOutcome.noop
    else if 1 < validMarkers then
      FitOutcome.fitBoundsClamped (if 16 < fitZoom then 16 else fitZoom)
    else FitOutcome.noop

/-- The bounds-fitting behaviour of MapComponent as a function of the props.
MapComponent destructures only agents, onAgentClick, center, zoom and
height from its props (part_000 lines 784-790); autoFitBounds and
preserveZoom are declared in GoogleMapProps and set by the caller but never
read, and the fitting effect body does not mention them, so the outcome is
independent of the props record. -/
def mapViewportFit (_props : GoogleMapProps) (hasMap : Bool)
    (markers : List (Option LatLng)) (fitZoom : Nat) : FitOutcome :=
  boundsFitEffect hasMap markers fitZoom

/-- A stored agent satisfying the isOnline invariant, with a known battery
level. -/
def agentWithBattery : AgentLocation :=
  { agentId := "agent-1"
    agentFirstName := "Asha"
    agentLastName := "Patil"
    agentMobile := "9000000001"
    lastLocation := "Pune"
    latitude := 18
    longitude := 73
    accuracy := some 5
    connectionStatus := ConnectionStatus.online
    lastUpdate := "2026-10-11T10:00:00Z"
    batteryLevel := some 80
    isCharging := some false
    isOnline := true }

/-- A location-update payload for agent-1 whose isOnline field (true)
disagrees with its connectionStatus field (OFFLINE), and which omits the
optional accuracy, batteryLevel and isCharging keys. -/
def inconsistentUpdate : AgentLocationUpdate :=
  { agentId := "agent-1"
    agentFirstName := "Asha"
    agentLastName := "Patil"
    agentMobile := "9000000001"
    lastLocation := "Pune"
    latitude := 18
    longitude := 73
    accuracy := none
    connectionStatus := ConnectionStatus.offline
    lastUpdate := "2026-10-11T10:05:00Z"
    batteryLevel := none
    isCharging := none
    isOnline := true }

/-- A payload-consistent location update carrying a fresh, unknown agentId
and omitting the optional keys. -/
def consistentUpdate : AgentLocationUpdate :=
  { agentId := "agent-2"
    agentFirstName := "Ravi"
    agentLastName := "Kumar"
    agentMobile := "9000000002"
    lastLocation := "Mumbai"
    latitude := 19
    longitude := 72
    accuracy := none
    connectionStatus := ConnectionStatus.online
    lastUpdate := "2026-10-11T10:06:00Z"
    batteryLevel := none
    isCharging := none
    isOnline := true }

/-- A status-update payload for an agentId absent from the example store. -/
def unknownStatusUpdate : ConnectionStatusUpdate :=
  { agentId := "agent-9"
    status := ConnectionStatus.offline
    timestamp := "2026-10-11T10:07:00Z" }

/-- Every member of the store after handleLocationUpdate is either the
(conditionally merged) image of a previous member or the freshly pushed
record. -/
theorem mem_handleLocationUpdate {a : AgentLocation} {t : String}
    {u : AgentLocationUpdate} {store : List AgentLocation}
    (ha : a ∈ handleLocationUpdate t u store) :
    (∃ b ∈ store, a = if b.agentId == u.agentId then mergeAgent b u t else b) ∨
      a = newAgentFromUpdate u t := by
  simp only [handleLocationUpdate] at ha
  split at ha
  · rcases List.mem_map.mp ha with ⟨b, hb, hba⟩
    exact Or.inl ⟨b, hb, hba.symm⟩
  · rcases List.mem_append.mp ha with h1 | h2
    · rcases List.mem_map.mp h1 with ⟨b, hb, hba⟩
      exact Or.inl ⟨b, hb, hba.symm⟩
    · exact Or.inr (List.mem_singleton.mp h2)

/-- The merged record inherits the consistency of the payload: its isOnline
and connectionStatus fields are exactly those of the update. -/
theorem isOnlineInvariant_mergeAgent (b : AgentLocation)
    (u : AgentLocationUpdate) (t : String) :
    isOnlineInvariant (mergeAgent b u t) = eventConsistent u := rfl

/-- Likewise for the record pushed for an unknown agentId. -/
theorem isOnlineInvariant_newAgent (u : AgentLocationUpdate) (t : String) :
    isOnlineInvariant (newAgentFromUpdate u t) = eventConsistent u := rfl

/-- Claim C1, counterexample: a location-update event whose isOnline field
disagrees with its connectionStatus field leaves the store with a record
violating isOnline == (connectionState == ONLINE) immediately after the
mutation, because handleLocationUpdate copies both fields verbatim from
the payload and never recomputes isOnline. -/
theorem locationUpdate_breaks_isOnline_invariant :
    ((handleLocationUpdate "2026-10-11T10:05:00Z" inconsistentUpdate
        [agentWithBattery]).all isOnlineInvariant) = false := by decide

/-- Claim C1 (amended): the status-update path re-establishes the
isOnline invariant on the record it touches unconditionally; the
location-update path and the snapshot path store the payload fields
verbatim, so they preserve the invariant exactly when the incoming
payloads themselves satisfy it. Hence: from a store satisfying the
invariant, every mutation yields a store satisfying it provided every
location-update payload is self-consistent and every snapshot payload
satisfies the invariant. -/
theorem store_mutations_preserve_isOnline_invariant
    (store : List AgentLocation) (t : String)
    (hstore : ∀ a ∈ store, isOnlineInvariant a = true) :
    (∀ u : AgentLocationUpdate, eventConsistent u = true →
        ∀ a ∈ handleLocationUpdate t u store, isOnlineInvariant a = true) ∧
    (∀ su : ConnectionStatusUpdate,
        ∀ a ∈ handleStatusUpdate t su store, isOnlineInvariant a = true) ∧
    (∀ data : Option (List AgentLocation),
        (∀ a ∈ data.getD [], isOnlineInvariant a = true) →
        ∀ a ∈ applySnapshot data, isOnlineInvariant a = true) := by
  refine ⟨?_, ?_, ?_⟩
  · intro u hu a ha
    rcases mem_handleLocationUpdate ha with ⟨b, hb, rfl⟩ | rfl
    · split
      · exact (isOnlineInvariant_mergeAgent b u t).trans hu
      · exact hstore b hb
    · exact (isOnlineInvariant_newAgent u t).trans hu
  · intro su a ha
    rcases List.mem_map.mp ha with ⟨b, hb, rfl⟩
    split
    · cases su.status <;> rfl
    · exact hstore b hb
  · intro data hdata a ha
    exact hdata a ha

/-- Witness for the amended C1 theorem at a concrete input. -/
theorem store_mutations_preserve_isOnline_invariant_witness :
    isOnlineInvariant (newAgentFromUpdate consistentUpdate "t1") = true := by
  have h := (store_mutations_preserve_isOnline_invariant [] "t1"
      (by intro a ha; cases ha)).1 consistentUpdate (by decide)
  exact h (newAgentFromUpdate consistentUpdate "t1") (by decide)

/-- Claim C7: the location-update merge is a field-wise shallow merge:
every optional field absent from the event payload retains its previously
stored value. -/
theorem merge_preserves_absent_fields (a : AgentLocation)
    (u : AgentLocationUpdate) (t : String) :
    (u.batteryLevel = none → (mergeAgent a u t).batteryLevel = a.batteryLevel) ∧
    (u.accuracy = none → (mergeAgent a u t).accuracy = a.accuracy) ∧
    (u.isCharging = none → (mergeAgent a u t).isCharging = a.isCharging) := by
  refine ⟨fun h => ?_, fun h => ?_, fun h => ?_⟩ <;> simp [mergeAgent, spreadOpt, h]

/-- Witness for C7: a stored batteryLevel of 80 survives a location update
lacking the batteryLevel key. -/
theorem merge_preserves_absent_fields_witness :
    (mergeAgent agentWithBattery inconsistentUpdate "t1").batteryLevel = some 80 := by
  have h := (merge_preserves_absent_fields agentWithBattery inconsistentUpdate "t1").1 rfl
  exact h.trans rfl

/-- Mapping a guarded rewrite over a list on which the guard never holds is
the identity. -/
theorem map_ite_id (store : List AgentLocation) (p : AgentLocation → Bool)
    (f : AgentLocation → AgentLocation) (h : ∀ a ∈ store, p a = false) :
    (store.map fun a => if p a then f a else a) = store := by
  induction store with
  | nil => rfl
  | cons b bs ih =>
    have hb := h b (List.mem_cons_self b bs)
    simp only [List.map_cons, hb, Bool.false_eq_true, if_false]
    rw [ih fun a ha => h a (List.mem_cons_of_mem b ha)]

/-- Claim C8: on a store with pairwise-distinct agentIds, a status update
for an unknown agentId is a no-op, while a location update for an unknown
agentId appends exactly one record, keeping the agentIds pairwise
distinct. -/
theorem unknown_agent_update_behavior (store : List AgentLocation) (t : String)
    (hnodup : (store.map AgentLocation.agentId).Nodup) :
    (∀ su : ConnectionStatusUpdate,
        su.agentId ∉ store.map AgentLocation.agentId →
        handleStatusUpdate t su store = store) ∧
    (∀ lu : AgentLocationUpdate,
        lu.agentId ∉ store.map AgentLocation.agentId →
        handleLocationUpdate t lu store = store ++ [newAgentFromUpdate lu t] ∧
        (handleLocationUpdate t lu store).length = store.length + 1 ∧
        ((handleLocationUpdate t lu store).map AgentLocation.agentId).Nodup) := by
  constructor
  · intro su hsu
    have hall : ∀ a ∈ store, (a.agentId == su.agentId) = false := by
      intro a ha
      rw [beq_eq_false_iff_ne]
      intro he
      exact hsu (he ▸ List.mem_map_of_mem AgentLocation.agentId ha)
    exact map_ite_id store (fun a => a.agentId == su.agentId)
      (fun a => { a with
        connectionStatus := su.status
        isOnline := su.status == ConnectionStatus.online
        lastUpdate := t }) hall
  · intro lu hlu
    have hall : ∀ a ∈ store, (a.agentId == lu.agentId) = false := by
      intro a ha
      rw [beq_eq_false_iff_ne]
      intro he
      exact hlu (he ▸ List.mem_map_of_mem AgentLocation.agentId ha)
    have hmap : (store.map fun agent =>
        if agent.agentId == lu.agentId then mergeAgent agent lu t else agent)
        = store :=
      map_ite_id store (fun a => a.agentId == lu.agentId)
        (fun a => mergeAgent a lu t) hall
    have hany : (store.any fun agent => agent.agentId == lu.agentId) = false := by
      rw [List.any_eq_false]
      intro a ha
      simp [hall a ha]
    have hexp : handleLocationUpdate t lu store
        = store ++ [newAgentFromUpdate lu t] := by
      simp only [handleLocationUpdate]
      rw [hmap, hany]
      simp
    refine ⟨hexp, ?_, ?_⟩
    · rw [hexp]
      simp
    · rw [hexp, List.map_append]
      refine List.nodup_append.mpr ⟨hnodup, List.nodup_singleton _, ?_⟩
      intro x hx hx2
      simp only [List.map_cons, List.map_nil, List.mem_singleton] at hx2
      subst hx2
      exact hlu hx

/-- Witness for C8 at a concrete one-element store and unknown agentIds. -/
theorem unknown_agent_update_behavior_witness :
    handleStatusUpdate "t1" unknownStatusUpdate [agentWithBattery]
      = [agentWithBattery] ∧
    (handleLocationUpdate "t1" consistentUpdate [agentWithBattery]).length = 2 := by
  have h := unknown_agent_update_behavior [agentWithBattery] "t1" (by decide)
  exact ⟨h.1 unknownStatusUpdate (by decide),
    (h.2 consistentUpdate (by decide)).2.1⟩

/-- A transport failure increments the reconnect counter exactly when it is
still below maxReconnectAttempts. -/
theorem onTransportFailure_reconnectAttempts (s : WsState) :
    (onTransportFailure s).1.reconnectAttempts =
      if s.reconnectAttempts ≥ maxReconnectAttempts then s.reconnectAttempts
      else s.reconnectAttempts + 1 := by
  by_cases h : s.reconnectAttempts ≥ maxReconnectAttempts <;>
    simp [onTransportFailure, handleReconnect, h]

/-- A transport failure never changes the reconnectDelay field. -/
theorem onTransportFailure_reconnectDelay (s : WsState) :
    (onTransportFailure s).1.reconnectDelay = s.reconnectDelay := by
  by_cases h : s.reconnectAttempts ≥ maxReconnectAttempts <;>
    simp [onTransportFailure, handleReconnect, h]

/-- The delay scheduled by a transport failure as a function of the state. -/
theorem onTransportFailure_delay (s : WsState) :
    (onTransportFailure s).2.2 =
      if s.reconnectAttempts ≥ maxReconnectAttempts then none
      else some (min (s.reconnectDelay * 2 ^ s.reconnectAttempts)
        maxReconnectDelay) := by
  by_cases h : s.reconnectAttempts ≥ maxReconnectAttempts <;>
    simp [onTransportFailure, handleReconnect, h]

/-- After k consecutive transport failures from a reset state the counter
is min k 5 and the base delay is still 1000. -/
theorem afterFailuresFrom_fields (s : WsState) (h0 : s.reconnectAttempts = 0)
    (hd : s.reconnectDelay = initialReconnectDelay) (k : Nat) :
    (afterFailuresFrom s k).reconnectAttempts = min k maxReconnectAttempts ∧
    (afterFailuresFrom s k).reconnectDelay = initialReconnectDelay := by
  induction k with
  | zero => exact ⟨by simpa [afterFailuresFrom] using h0,
      by simpa [afterFailuresFrom] using hd⟩
  | succ n ih =>
    constructor
    · simp only [afterFailuresFrom, onTransportFailure_reconnectAttempts, ih.1]
      simp only [maxReconnectAttempts]
      split <;> omega
    · simp only [afterFailuresFrom, onTransportFailure_reconnectDelay, ih.2]

/-- Claim C2: starting from any reset state (counter 0, base delay 1000 --
the constructor state and every post-onConnect state are such), the nth
consecutive transport failure schedules a reconnect delay of
min(1000 * 2 ^ (n-1), 30000) for n = 1..5, no reconnect is scheduled from
the 6th failure on, and onConnect resets the counter to 0 and the base
delay to 1000. -/
theorem reconnect_backoff_policy (s : WsState)
    (h0 : s.reconnectAttempts = 0)
    (hd : s.reconnectDelay = initialReconnectDelay) :
    (∀ n, 1 ≤ n → n ≤ 5 →
        nthFailureDelayFrom s n = some (min (1000 * 2 ^ (n - 1)) 30000)) ∧
    (∀ n, 6 ≤ n → nthFailureDelayFrom s n = none) ∧
    (∀ s2 : WsState, (onConnect s2).1.reconnectAttempts = 0 ∧
        (onConnect s2).1.reconnectDelay = initialReconnectDelay) := by
  refine ⟨?_, ?_, ?_⟩
  · intro n h1 h5
    have hf := afterFailuresFrom_fields s h0 hd (n - 1)
    have hmin : min (n - 1) maxReconnectAttempts = n - 1 := by
      simp only [maxReconnectAttempts]; omega
    unfold nthFailureDelayFrom
    rw [onTransportFailure_delay, hf.1, hf.2, hmin,
      if_neg (by simp only [maxReconnectAttempts]; omega :
        ¬ n - 1 ≥ maxReconnectAttempts)]
    simp [initialReconnectDelay, maxReconnectDelay]
  · intro n h6
    have hf := afterFailuresFrom_fields s h0 hd (n - 1)
    have hmin : min (n - 1) maxReconnectAttempts = maxReconnectAttempts := by
      simp only [maxReconnectAttempts]; omega
    unfold nthFailureDelayFrom
    rw [onTransportFailure_delay, hf.1, hmin, if_pos (le_refl _)]
  · intro s2
    exact ⟨rfl, rfl⟩

/-- Witness for C2 at the constructor state: the 1st failure schedules
1000 ms and the 6th schedules nothing. -/
theorem reconnect_backoff_policy_witness :
    nthFailureDelayFrom initialWsState 1 = some (min (1000 * 2 ^ (1 - 1)) 30000) ∧
    nthFailureDelayFrom initialWsState 6 = none := by
  have h := reconnect_backoff_policy initialWsState rfl rfl
  exact ⟨h.1 1 (by decide) (by decide), h.2.1 6 (by decide)⟩

/-- Claim C5, counterexample: from the reachable state in which a 1000 ms
reconnect timer is pending and the service then connected, disconnect()
leaves the timer pending, and when the timer fires it finds the service
disconnected and invokes connect(), which activates the client. This
refutes both the timer-cancellation part and the no-reconnect-after-
disconnect part of the claim. -/
theorem disconnect_leaves_pending_reconnect_cex :
    (disconnect pendingAfterReconnectScheduled).1.pendingReconnects = [1000] ∧
    (fireReconnectTimer true (disconnect pendingAfterReconnectScheduled).1).2
      = [WsAction.activate] := by decide

/-- Claim C5 (amended): disconnect() deactivates the session, marks it
disconnected and notifies listeners that the connection is down, and is
idempotent; but it does not cancel pending reconnect timers: the pending
queue is untouched, and a timer scheduled before disconnect() still fires
and (finding the service disconnected) invokes connect(), activating the
client. -/
theorem disconnect_behavior (s : WsState) (h : s.clientExists = true) :
    (disconnect s).1.isConnected = false ∧
    (disconnect s).2 = [WsAction.deactivate, WsAction.notifyConnected false] ∧
    (disconnect s).1.pendingReconnects = s.pendingReconnects ∧
    disconnect (disconnect s).1 = disconnect s ∧
    (fireReconnectTimer true (disconnect s).1).2 = [WsAction.activate] := by
  obtain ⟨ce, ic, ra, rd, pr⟩ := s
  dsimp only at h
  subst h
  exact ⟨rfl, rfl, rfl, rfl, rfl⟩

/-- Witness for the amended C5 theorem at the concrete reachable state. -/
theorem disconnect_behavior_witness :
    (disconnect pendingAfterReconnectScheduled).1.isConnected = false ∧
    disconnect (disconnect pendingAfterReconnectScheduled).1
      = disconnect pendingAfterReconnectScheduled := by
  have h := disconnect_behavior pendingAfterReconnectScheduled rfl
  exact ⟨h.1, h.2.2.2.1⟩

/-- Claim C6: connect() while already connected is a no-op: the state
(including isConnected and reconnectAttempts, i.e. ConnectionHealth) is
unchanged and no action -- in particular no topic subscription and no
client activation -- is emitted. -/
theorem connect_noop_when_connected (hasToken : Bool) (s : WsState)
    (h : s.isConnected = true) :
    connect hasToken s = (s, []) := by
  simp [connect, h]

/-- Witness for C6 at a concrete connected state. -/
theorem connect_noop_when_connected_witness :
    connect true pendingAfterReconnectScheduled
      = (pendingAfterReconnectScheduled, []) :=
  connect_noop_when_connected true pendingAfterReconnectScheduled rfl

/-- Claim C3, counterexample: with the full retry budget remaining, an
AbortError (the 10-second timeout) schedules no retry and surfaces the
user-visible error immediately, while a non-abort failure in the same
state schedules a 2000 ms retry and surfaces nothing -- so an aborted call
is not treated like other network failures by the retry logic. -/
theorem abort_not_retried_cex :
    (onLoadFailure 0 true "Failed to fetch" initialRetryState).2 = none ∧
    (onLoadFailure 0 true "Failed to fetch" initialRetryState).1.errorShown
      = true ∧
    (onLoadFailure 0 false "Failed to fetch" initialRetryState).2 = some 2000 ∧
    (onLoadFailure 0 false "Failed to fetch" initialRetryState).1.errorShown
      = false := by decide

/-- Claim C3 (amended): a snapshot load aborted by the 10-second timeout is
never retried: regardless of the retryCount read by the failing
invocation, the error branch runs immediately with the timeout-specific
message; a non-abort failure with retry budget remaining is instead
retried after RETRY_DELAY * (captured + 1) ms with no error surfaced. -/
theorem abort_never_retried (captured : Nat) (msg : String) (s : RetryState) :
    (onLoadFailure captured true msg s).2 = none ∧
    (onLoadFailure captured true msg s).1.errorShown = true ∧
    (onLoadFailure captured true msg s).1.errorMessage
      = some timeoutErrorMessage ∧
    (captured < MAX_RETRY_ATTEMPTS →
      (onLoadFailure captured false msg s).2
        = some (RETRY_DELAY * (captured + 1)) ∧
      (onLoadFailure captured false msg s).1.errorShown = s.errorShown) := by
  refine ⟨by simp [onLoadFailure], by simp [onLoadFailure],
    by simp [onLoadFailure], fun h => ?_⟩
  constructor <;> simp [onLoadFailure, h]

/-- Witness for the amended C3 theorem at a concrete input. -/
theorem abort_never_retried_witness :
    (onLoadFailure 1 true "boom" initialRetryState).1.errorMessage
      = some timeoutErrorMessage ∧
    (onLoadFailure 1 false "boom" initialRetryState).2
      = some (RETRY_DELAY * 2) := by
  have h := abort_never_retried 1 "boom" initialRetryState
  exact ⟨h.2.2.1, (h.2.2.2 (by decide)).1⟩

/-- Claim C4: after 3 consecutive snapshot-fetch failures starting at
mount, no user-visible error has been emitted. Moreover, since every
scheduled retry re-invokes the mount-render closure (whose captured
retryCount is 0), the scheduled delays are a constant 2000 ms -- not
attempt * 2000 -- and the error toast is never reached at any length of
the failure chain. Even under the counterfactual reading in which each
invocation reads the current retryCount, the delays are 2000/4000/6000 ms
and the error first appears after the 4th consecutive failure, still not
after the 3rd as claimed. -/
theorem mount_retry_chain_never_surfaces_error :
    (mountLoadFailures 3).1.errorShown = false ∧
    (mountLoadFailures 3).2 = [2000, 2000, 2000] ∧
    (∀ n, (mountLoadFailures n).1.errorShown = false) ∧
    (freshLoadFailures 3).1.errorShown = false ∧
    (freshLoadFailures 3).2 = [2000, 4000, 6000] ∧
    (freshLoadFailures 4).1.errorShown = true := by
  refine ⟨by decide, by decide, ?_, by decide, by decide, by decide⟩
  intro n
  induction n with
  | zero => rfl
  | succ k ih =>
    have hc : 0 < MAX_RETRY_ATTEMPTS ∧ (false : Bool) = false := by decide
    simp only [mountLoadFailures, onLoadFailure, if_pos hc]
    exact ih

/-- Claim C10: the fallback poll is not suppressed while the stream is
connected. handleConnectionChange(true) records the stream as connected in
component state, yet the interval callback installed by the mount effect
reads the wsConnected binding it captured at mount (false, the useState
initial value, since the effect has an empty dependency array and never
re-runs), so its guard !wsConnected is always true and the snapshot and
statistics fetches are issued on every tick, connected or not. -/
theorem fallback_poll_runs_while_connected :
    (handleConnectionChange true { wsConnected := false }).wsConnected
      = true ∧
    fallbackPollFetches mountCapturedWsConnected = true := by decide

/-- Claim C9, counterexample: with autoFitBounds false and preserveZoom
true (exactly the props the caller passes in agent-detail mode, i.e. when
a single agent is focused) and two registered markers, the bounds-fitting
effect still runs and fits the viewport (clamping the zoom to 16) -- the
effect never reads the mode props. -/
theorem viewport_fit_ignores_mode_cex :
    mapViewportFit { autoFitBounds := false, preserveZoom := true } true
      [some (18, 73), some (19, 72)] 18 = FitOutcome.fitBoundsClamped 16 ∧
    mapViewportFit { autoFitBounds := false, preserveZoom := true } true
      [some (18, 73), some (19, 72)] 18 ≠ FitOutcome.noop := by decide

/-- Claim C9 (amended): the bounds-fitting effect is independent of the
autoFitBounds and preserveZoom props (it runs in every mode once the map
exists and a marker is registered); whenever it runs, a single registered
marker makes the map center on it at zoom 15, and two or more valid
markers make it fit the bounding box of all markers with the resulting
zoom clamped to at most 16. -/
theorem viewport_fit_behavior (p1 p2 : GoogleMapProps) (hasMap : Bool)
    (markers : List (Option LatLng)) (fitZoom : Nat) :
    mapViewportFit p1 hasMap markers fitZoom
      = mapViewportFit p2 hasMap markers fitZoom ∧
    (∀ pos : LatLng, markers = [some pos] →
        mapViewportFit p1 true markers fitZoom
          = FitOutcome.centerSingle pos 15) ∧
    (2 ≤ (markers.filterMap id).length →
        ∃ z, mapViewportFit p1 true markers fitZoom
          = FitOutcome.fitBoundsClamped z ∧ z ≤ 16) := by
  refine ⟨rfl, ?_, ?_⟩
  · intro pos hm
    subst hm
    rfl
  · intro hv
    simp only [mapViewportFit, boundsFitEffect]
    have hlen : ¬((true : Bool) = false ∨ markers.length = 0) := by
      rintro (h | h)
      · exact absurd h (by decide)
      · have := List.length_filterMap_le id markers
        omega
    rw [if_neg hlen, if_neg (by omega : ¬((markers.filterMap id).length = 1)),
      if_pos (by omega : 1 < (markers.filterMap id).length)]
    refine ⟨if 16 < fitZoom then 16 else fitZoom, rfl, ?_⟩
    split <;> omega

/-- Witness for the amended C9 theorem: one marker, centered at zoom 15. -/
theorem viewport_fit_behavior_witness :
    mapViewportFit { autoFitBounds := true, preserveZoom := false } true
      [some (18, 73)] 10 = FitOutcome.centerSingle (18, 73) 15 :=
  (viewport_fit_behavior { autoFitBounds := true, preserveZoom := false }
    { autoFitBounds := true, preserveZoom := false } true
    [some (18, 73)] 10).2.1 (18, 73) rfl
